import Mathlib

/-!
Verification of the Rooted AI repository's memory-explanation frontend
(`frontend/src/MessageBubble.jsx`, `frontend/src/App.jsx`) and of the
spec-described memory classification / tree-scoped retrieval backend.

The frontend components are shallowly embedded from the JSX source: the
rendered output of a component is modelled as a record of the observable
pieces the JSX produces (which blocks are present, their labels, their
item lists), and React state (`showExplain`, the message list) is passed
explicitly.
-/

/-- The `explanation` payload attached to an assistant message
(`data.memory_used` in `App.jsx`). In the JS object each of the arrays may
be absent, which `MessageBubble.jsx` probes with optional chaining
(`memoryData.stem?.length > 0`); absence is modelled with `Option`. A
`leaf` field is carried so we can state that the panel never reads it. -/
structure Explanation where
  stem : Option (List String)
  branch : Option (List String)
  leaf : Option (List String)
deriving Repr, DecidableEq

/-- A chat transcript message as built in `App.jsx`: `role` is the string
tag compared against the literal "user", `text` is the body, and
`explanation` is the optional structured memory payload. -/
structure Message where
  role : String
  text : String
  explanation : Option Explanation
deriving Repr, DecidableEq

/-- The empty object `{}` used as fallback in
`const memoryData = message.explanation || {}`. -/
def emptyExplanation : Explanation :=
  { stem := none, branch := none, leaf := none }

/-- `message.explanation || {}` from `MessageBubble.jsx`. -/
def memoryData (m : Message) : Explanation :=
  m.explanation.getD emptyExplanation

/-- `const isUser = message.role === 'user'` from `MessageBubble.jsx`. -/
def isUser (m : Message) : Bool :=
  m.role == "user"

/-- The JS test `xs?.length > 0` on an optional array: `false` when the
field is absent (optional chaining yields `undefined`, and
`undefined > 0` is false), otherwise a length check. -/
def optNonEmpty (o : Option (List String)) : Bool :=
  match o with
  | none => false
  | some l => decide (0 < l.length)

/-- `const hasMemory = memoryData.stem?.length > 0 || memoryData.branch?.length > 0`
from `MessageBubble.jsx`. -/
def hasMemory (m : Message) : Bool :=
  optNonEmpty (memoryData m).stem || optNonEmpty (memoryData m).branch

/-- One labelled block of the explanation panel: a bold label span and the
`<ul>` of items rendered by `map` over the corresponding array. -/
structure PanelSection where
  label : String
  items : List String
deriving Repr, DecidableEq

/-- The blocks of the "Memory Context Used" panel, in document order, from
`MessageBubble.jsx`: the STEM block is rendered iff
`memoryData.stem?.length > 0` and lists `memoryData.stem` in array order
under the label "STEM (Identity)"; likewise the BRANCH block under
"BRANCH (Pattern)". No other field of the explanation is read. -/
def panelSections (e : Explanation) : List PanelSection :=
  (if optNonEmpty e.stem then [{ label := "STEM (Identity)", items := e.stem.getD [] }] else [])
    ++
  (if optNonEmpty e.branch then [{ label := "BRANCH (Pattern)", items := e.branch.getD [] }] else [])

/-- The observable output of one `MessageBubble` render: the AI avatar,
the bubble text, whether the explainability toggle is in the tree, the
toggle's caption, and the explanation panel (as its section list) when
rendered. -/
structure RenderedBubble where
  showsAvatar : Bool
  bodyText : String
  showsToggle : Bool
  toggleLabel : Option String
  panel : Option (List PanelSection)
deriving Repr, DecidableEq

/-- Shallow embedding of the `MessageBubble` component
(`MessageBubble.jsx`): `showExplain` is the component's `useState` flag.
The toggle is guarded by `!isUser && hasMemory`; the panel by
`showExplain && !isUser && hasMemory`. -/
def renderMessageBubble (m : Message) (showExplain : Bool) : RenderedBubble :=
  { showsAvatar := !isUser m
    bodyText := m.text
    showsToggle := !isUser m && hasMemory m
    toggleLabel :=
      if !isUser m && hasMemory m then
        some (if showExplain then "Hide Context" else "Why did I say this?")
      else none
    panel :=
      if showExplain && (!isUser m && hasMemory m) then
        some (panelSections (memoryData m))
      else none }

/-- All items displayed under a given label in a rendered panel. -/
def itemsUnder (secs : List PanelSection) (lab : String) : List String :=
  (secs.filter (fun s => s.label == lab)).flatMap (fun s => s.items)

/-- Every item displayed anywhere in a rendered panel, in document order. -/
def allPanelItems (secs : List PanelSection) : List String :=
  secs.flatMap (fun s => s.items)

lemma getD_nil_of_not_optNonEmpty (o : Option (List String))
    (h : optNonEmpty o = false) : o.getD [] = [] := by
  cases o with
  | none => rfl
  | some l =>
    cases l with
    | nil => rfl
    | cons a t => simp [optNonEmpty] at h

lemma itemsUnder_panelSections (e : Explanation) :
    itemsUnder (panelSections e) "STEM (Identity)" = e.stem.getD [] ∧
    itemsUnder (panelSections e) "BRANCH (Pattern)" = e.branch.getD [] ∧
    allPanelItems (panelSections e) = e.stem.getD [] ++ e.branch.getD [] := by
  unfold panelSections itemsUnder allPanelItems
  cases hs : optNonEmpty e.stem <;> cases hb : optNonEmpty e.branch <;>
    simp [hs, hb, getD_nil_of_not_optNonEmpty]

lemma label_mem_panelSections (e : Explanation) (s : PanelSection)
    (h : s ∈ panelSections e) :
    s.label = "STEM (Identity)" ∨ s.label = "BRANCH (Pattern)" := by
  unfold panelSections at h
  rcases List.mem_append.1 h with h' | h' <;> split at h' <;> simp_all

/-- The shape of a successful reply from `sendMessage` in `App.jsx`:
`data.response` is the assistant text, `data.memory_used` the structured
memory explanation. -/
structure SendResponse where
  response : String
  memory_used : Explanation
deriving Repr, DecidableEq

/-- The request issued by `sendMessage(userMsg.text, session.access_token)`
in `App.jsx`: the user's text together with the session access token. -/
structure ChatRequest where
  text : String
  accessToken : String
deriving Repr, DecidableEq

/-- The pieces of `App` component state that `handleSend` reads and
writes: the input box value and the transcript. -/
structure ChatState where
  input : String
  messages : List Message
deriving Repr, DecidableEq

/-- The fallback assistant text appended in the `catch` branch of
`handleSend`. -/
def connectionErrorText : String :=
  "I\u0027m having trouble connecting to my memory patterns right now."

/-- Shallow embedding of `handleSend` from `App.jsx`. The outcome of the
awaited `sendMessage` call is passed in as `result` (`Except.ok data` for a
successful response, `Except.error` for a thrown error). Returns the new
state together with the request that was issued (`none` when the guard
`if (!input.trim()) return` fires and nothing is sent). On success the
assistant message carries `data.response` as text and `data.memory_used`
as its `explanation`; on error a fixed apology with no explanation. -/
def handleSend (st : ChatState) (accessToken : String)
    (result : Except Unit SendResponse) : ChatState × Option ChatRequest :=
  if st.input.trim = "" then (st, none)
  else
    let userMsg : Message := { role := "user", text := st.input, explanation := none }
    match result with
    | Except.ok data =>
      let aiMsg : Message :=
        { role := "ai", text := data.response, explanation := some data.memory_used }
      ({ input := "", messages := st.messages ++ [userMsg, aiMsg] },
        some { text := userMsg.text, accessToken := accessToken })
    | Except.error _ =>
      let errMsg : Message :=
        { role := "ai", text := connectionErrorText, explanation := none }
      ({ input := "", messages := st.messages ++ [userMsg, errMsg] },
        some { text := userMsg.text, accessToken := accessToken })

/-- The memory taxonomy of the README and spec: STEM (identity),
BRANCH (habit/pattern), LEAF (event). -/
inductive MemoryTag
  | STEM
  | BRANCH
  | LEAF
deriving Repr, DecidableEq

/-- An extracted memory candidate presented to the classifier, carrying
the conversational fact and the features the taxonomy distinguishes:
whether it is a stable identity fact and whether it is a habitual/pattern
fact. -/
structure MemoryCandidate where
  content : String
  identityFact : Bool
  habitualFact : Bool
deriving Repr, DecidableEq

/-- Modelled from the spec: the backend Classifier (not present under the
provided sources, which contain only the frontend and a startup script)
"assigns each extracted memory candidate one of \x7bSTEM, BRANCH, LEAF\x7d":
identity facts become STEM, habitual/pattern facts BRANCH, and remaining
episodic events LEAF. -/
def classify (c : MemoryCandidate) : MemoryTag :=
  if c.identityFact then MemoryTag.STEM
  else if c.habitualFact then MemoryTag.BRANCH
  else MemoryTag.LEAF

/-- A persisted memory item: content stored together with its assigned
tag. -/
structure MemoryItem where
  content : String
  tag : MemoryTag
deriving Repr, DecidableEq

/-- Modelled from the spec: the Memory Store (external relational store)
"persists memory items with their tag": storing a candidate appends its
content paired with the tag the classifier assigned. -/
def storeCandidate (store : List MemoryItem) (c : MemoryCandidate) :
    List MemoryItem :=
  store ++ [{ content := c.content, tag := classify c }]

/-- A vector-search hit: a stored memory item with its similarity score. -/
structure ScoredItem where
  item : MemoryItem
  score : Nat
deriving Repr, DecidableEq

/-- Modelled from the spec: the Retrieval Scoper, "given a query,
restricts/reranks vector search results by tag/tree relevance before
passing to the language model" — the raw nearest-neighbor results are
filtered down to the tags relevant to the query's domain tree. -/
def scopeResults (relevantTags : List MemoryTag) (results : List ScoredItem) :
    List ScoredItem :=
  results.filter (fun r => relevantTags.contains r.item.tag)

/-- Modelled from the spec: the context handed to the language model for a
turn is the scoped result of the vector search, never the raw
similarity-ranked list. -/
def contextForTurn (relevantTags : List MemoryTag)
    (vectorResults : List ScoredItem) : List ScoredItem :=
  scopeResults relevantTags vectorResults

/-- Modelled from the spec: the language model (external collaborator)
generates the assistant reply from the user text and the retrieved
context, modelled as a deterministic function of exactly those inputs. -/
def generateReply (queryText : String) (context : List ScoredItem) : String :=
  String.intercalate "; " (context.map (fun r => r.item.content)) ++ " => " ++ queryText

/-- An observable step of one conversational turn of the pipeline. -/
inductive PipelineEvent
  | retrieve (context : List ScoredItem)
  | generate (context : List ScoredItem) (reply : String)
deriving Repr, DecidableEq

/-- Modelled from the spec: one conversational turn of the RAG pipeline —
"retrieving relevant stored context before generating a response". The
vector search results for the turn are scoped, then the reply is generated
from that scoped context; the event trace records the order. -/
def ragTurn (queryText : String) (relevantTags : List MemoryTag)
    (vectorResults : List ScoredItem) : List PipelineEvent × String :=
  let ctx := contextForTurn relevantTags vectorResults
  let reply := generateReply queryText ctx
  ([PipelineEvent.retrieve ctx, PipelineEvent.generate ctx reply], reply)

/-- Checks a pipeline trace left to right: every `generate` event must be
preceded by some `retrieve` event (the accumulator records whether a
retrieval has happened yet). -/
def tracePrecedes : Bool → List PipelineEvent → Bool
  | _, [] => true
  | _, PipelineEvent.retrieve _ :: rest => tracePrecedes true rest
  | seen, PipelineEvent.generate _ _ :: rest => seen && tracePrecedes seen rest

/-- A trace is retrieval-first when every generation is preceded by a
retrieval. -/
def retrievalFirst (tr : List PipelineEvent) : Bool :=
  tracePrecedes false tr

/-- Claim C1: for every extracted memory candidate, the classifier assigns
exactly one tag from the set STEM, BRANCH, LEAF, and the memory item is
stored with that assigned tag. -/
theorem classifier_assigns_one_tag_and_stores_it
    (store : List MemoryItem) (c : MemoryCandidate) :
    (classify c = MemoryTag.STEM ∨ classify c = MemoryTag.BRANCH ∨
      classify c = MemoryTag.LEAF) ∧
    (∃! t : MemoryTag, classify c = t) ∧
    (∃ i : MemoryItem,
      storeCandidate store c = store ++ [i] ∧
      i.content = c.content ∧ i.tag = classify c) := by
  refine ⟨?_, ⟨classify c, rfl, fun y hy => hy.symm⟩, ⟨_, rfl, rfl, rfl⟩⟩
  cases h : classify c <;> simp

/-- Witness for C1 at a concrete habitual-fact candidate. -/
theorem classifier_assigns_one_tag_and_stores_it_witness :
    ∃ i : MemoryItem,
      storeCandidate []
          { content := "likes tea", identityFact := false, habitualFact := true } =
        [] ++ [i] ∧
      i.content = "likes tea" ∧
      i.tag = classify
          { content := "likes tea", identityFact := false, habitualFact := true } :=
  (classifier_assigns_one_tag_and_stores_it [] _).2.2

/-- Claim C2: retrieval for a turn restricts the vector-search results by
tag before they are passed to the language model: every item in the turn
context carries a relevant tag, any hit with an irrelevant tag is dropped,
and the retrieve event of every turn carries the scoped (never the raw
similarity-ranked) results. -/
theorem retrieval_scoped_by_tag (relevantTags : List MemoryTag)
    (results : List ScoredItem) (queryText : String) :
    (∀ r ∈ contextForTurn relevantTags results,
        relevantTags.contains r.item.tag = true) ∧
    (∀ r ∈ results, relevantTags.contains r.item.tag = false →
        r ∉ contextForTurn relevantTags results) ∧
    (∀ ctx, PipelineEvent.retrieve ctx ∈ (ragTurn queryText relevantTags results).1 →
        ctx = scopeResults relevantTags results) := by
  refine ⟨?_, ?_, ?_⟩
  · intro r hr
    exact (List.mem_filter.1 hr).2
  · intro r _ hfalse hmem
    have hmem' := (List.mem_filter.1 hmem).2
    rw [hfalse] at hmem'
    exact Bool.false_ne_true hmem'
  · intro ctx hctx
    simp [ragTurn, contextForTurn] at hctx
    exact hctx

/-- Witness for C2: with only STEM relevant, a STEM hit passes the scope
check and a LEAF hit is excluded from the turn context. -/
theorem retrieval_scoped_by_tag_witness :
    ([MemoryTag.STEM].contains
        ({ item := { content := "a", tag := MemoryTag.STEM }, score := 5 } :
          ScoredItem).item.tag = true) ∧
    (({ item := { content := "b", tag := MemoryTag.LEAF }, score := 9 } :
        ScoredItem) ∉
      contextForTurn [MemoryTag.STEM]
        [{ item := { content := "a", tag := MemoryTag.STEM }, score := 5 },
         { item := { content := "b", tag := MemoryTag.LEAF }, score := 9 }]) :=
  ⟨(retrieval_scoped_by_tag [MemoryTag.STEM]
      [{ item := { content := "a", tag := MemoryTag.STEM }, score := 5 },
       { item := { content := "b", tag := MemoryTag.LEAF }, score := 9 }] "q").1
      _ (by decide),
   (retrieval_scoped_by_tag [MemoryTag.STEM]
      [{ item := { content := "a", tag := MemoryTag.STEM }, score := 5 },
       { item := { content := "b", tag := MemoryTag.LEAF }, score := 9 }] "q").2.1
      _ (by decide) (by decide)⟩

/-- Claim C6: in every conversational turn retrieval precedes generation:
the turn's event trace is retrieval-first, and every generate event in it
consumes exactly the context produced by the retrieval step. -/
theorem rag_retrieval_precedes_generation (queryText : String)
    (relevantTags : List MemoryTag) (vectorResults : List ScoredItem) :
    retrievalFirst (ragTurn queryText relevantTags vectorResults).1 = true ∧
    (∀ ctx reply,
        PipelineEvent.generate ctx reply ∈
          (ragTurn queryText relevantTags vectorResults).1 →
        ctx = contextForTurn relevantTags vectorResults ∧
        reply = generateReply queryText ctx) := by
  constructor
  · rfl
  · intro ctx reply h
    simp [ragTurn] at h
    obtain ⟨h1, h2⟩ := h
    subst h1
    subst h2
    exact ⟨rfl, rfl⟩

/-- Witness for C6: the generate event of a concrete turn consumes the
retrieved (empty) context. -/
theorem rag_retrieval_precedes_generation_witness :
    ([] : List ScoredItem) = contextForTurn [MemoryTag.STEM] [] ∧
    " => q" = generateReply "q" ([] : List ScoredItem) :=
  (rag_retrieval_precedes_generation "q" [MemoryTag.STEM] []).2 [] " => q" (by decide)

/-- Claim C3: for every assistant message whose explanation has a
non-empty stem or branch array, the opened panel shows exactly the stem
items under the label "STEM (Identity)" and exactly the branch items under
the label "BRANCH (Pattern)", each in array order, and items of no other
memory class (such as LEAF) ever appear in the panel. -/
theorem panel_shows_exactly_stem_and_branch (m : Message)
    (h1 : isUser m = false) (h2 : hasMemory m = true) :
    ∃ secs,
      (renderMessageBubble m true).panel = some secs ∧
      itemsUnder secs "STEM (Identity)" = (memoryData m).stem.getD [] ∧
      itemsUnder secs "BRANCH (Pattern)" = (memoryData m).branch.getD [] ∧
      allPanelItems secs =
        (memoryData m).stem.getD [] ++ (memoryData m).branch.getD [] ∧
      (∀ s ∈ secs,
        s.label = "STEM (Identity)" ∨ s.label = "BRANCH (Pattern)") := by
  refine ⟨panelSections (memoryData m), ?_, (itemsUnder_panelSections _).1,
    (itemsUnder_panelSections _).2.1, (itemsUnder_panelSections _).2.2,
    fun s hs => label_mem_panelSections _ s hs⟩
  simp [renderMessageBubble, h1, h2]

/-- A concrete assistant message with stem, branch and leaf content, used
to witness C3. -/
def sampleAiMessage : Message :=
  { role := "ai", text := "hello",
    explanation := some
      { stem := some ["likes tea"], branch := some ["runs daily"],
        leaf := some ["went hiking"] } }

/-- Witness for C3 at `sampleAiMessage`. -/
theorem panel_shows_exactly_stem_and_branch_witness :
    ∃ secs,
      (renderMessageBubble sampleAiMessage true).panel = some secs ∧
      itemsUnder secs "STEM (Identity)" =
        (memoryData sampleAiMessage).stem.getD [] ∧
      itemsUnder secs "BRANCH (Pattern)" =
        (memoryData sampleAiMessage).branch.getD [] ∧
      allPanelItems secs =
        (memoryData sampleAiMessage).stem.getD [] ++
          (memoryData sampleAiMessage).branch.getD [] ∧
      (∀ s ∈ secs,
        s.label = "STEM (Identity)" ∨ s.label = "BRANCH (Pattern)") :=
  panel_shows_exactly_stem_and_branch sampleAiMessage (by decide) (by decide)

/-- Claim C4: the explanation toggle is rendered for a message iff the
message is not a user message and its explanation has a non-empty stem
array or a non-empty branch array; a user message never shows the toggle
or the panel, whatever explanation content it carries. -/
theorem toggle_rendered_iff_assistant_with_memory (m : Message) (se : Bool) :
    ((renderMessageBubble m se).showsToggle = true ↔
      (¬ m.role = "user" ∧
        (optNonEmpty (memoryData m).stem = true ∨
         optNonEmpty (memoryData m).branch = true))) ∧
    (m.role = "user" →
      (renderMessageBubble m se).showsToggle = false ∧
      (renderMessageBubble m se).panel = none) := by
  constructor
  · simp [renderMessageBubble, isUser, hasMemory]
  · intro hu
    constructor <;> simp [renderMessageBubble, isUser, hu]

/-- A concrete user message carrying explanation content, used to witness
C4. -/
def sampleUserMessage : Message :=
  { role := "user", text := "hi",
    explanation := some
      { stem := some ["likes tea"], branch := some ["runs daily"],
        leaf := none } }

/-- Witness for C4: a user message with non-empty stem and branch arrays
still renders no toggle and no panel. -/
theorem toggle_rendered_iff_assistant_with_memory_witness :
    (renderMessageBubble sampleUserMessage true).showsToggle = false ∧
    (renderMessageBubble sampleUserMessage true).panel = none :=
  (toggle_rendered_iff_assistant_with_memory sampleUserMessage true).2 rfl

/-- Claim C5: a successful send of non-empty user text issues the request
carrying the user's text and the session access token, and appends to the
transcript the user message followed by a single assistant message whose
text is `data.response` and whose explanation is `data.memory_used`. -/
theorem send_contract_on_success (st : ChatState) (tok : String)
    (data : SendResponse) (h : ¬ st.input.trim = "") :
    (handleSend st tok (Except.ok data)).2 =
      some { text := st.input, accessToken := tok } ∧
    (handleSend st tok (Except.ok data)).1.messages =
      st.messages ++
        [{ role := "user", text := st.input, explanation := none },
         { role := "ai", text := data.response,
           explanation := some data.memory_used }] ∧
    ((handleSend st tok (Except.ok data)).1.messages.filter
        (fun m => !isUser m)).length =
      (st.messages.filter (fun m => !isUser m)).length + 1 := by
  refine ⟨?_, ?_, ?_⟩ <;> simp [handleSend, h, isUser]

/-- Concrete evaluation of `String.trim` (defined by well-founded
recursion, so not reducible by `decide`) on the literal "hi". -/
lemma trim_hi : "hi".trim = "hi" := by
  have h1 : Substring.takeWhileAux "hi" ⟨2⟩ Char.isWhitespace ⟨0⟩ = ⟨0⟩ := by
    rw [Substring.takeWhileAux]
    decide
  have h2 : Substring.takeRightWhileAux "hi" ⟨0⟩ Char.isWhitespace ⟨2⟩ = ⟨2⟩ := by
    rw [Substring.takeRightWhileAux]
    decide
  show (Substring.trim ⟨"hi", ⟨0⟩, ⟨2⟩⟩).toString = "hi"
  rw [Substring.trim]
  simp only [h1, h2]
  rfl

/-- A concrete chat state with non-empty input, used to witness C5. -/
def sampleState : ChatState :=
  { input := "hi", messages := [] }

/-- A concrete successful response, used to witness C5. -/
def sampleResponse : SendResponse :=
  { response := "hello",
    memory_used := { stem := some ["s"], branch := none, leaf := none } }

/-- Witness for C5 at `sampleState` and `sampleResponse`. -/
theorem send_contract_on_success_witness :
    (handleSend sampleState "tok" (Except.ok sampleResponse)).2 =
      some { text := sampleState.input, accessToken := "tok" } ∧
    (handleSend sampleState "tok" (Except.ok sampleResponse)).1.messages =
      sampleState.messages ++
        [{ role := "user", text := sampleState.input, explanation := none },
         { role := "ai", text := sampleResponse.response,
           explanation := some sampleResponse.memory_used }] ∧
    ((handleSend sampleState "tok" (Except.ok sampleResponse)).1.messages.filter
        (fun m => !isUser m)).length =
      (sampleState.messages.filter (fun m => !isUser m)).length + 1 :=
  send_contract_on_success sampleState "tok" sampleResponse
    (by rw [show sampleState.input = "hi" from rfl, trim_hi]; decide)
